import Mathlib

/-!
Verification development for the Charity Intelligence Map repository.

The repository consists of a Python backend (`backend/processing.py`,
`backend/models.py`, `backend/config.py`) implementing the Need-Scoring and
Anomaly-Detection engine, and a JavaScript frontend (`frontend/js/*.js`)
implementing search, filtering and display.  The backend engine source is not
present in the checkout; its behaviour is modelled from the specification
(marked `Modelled from the spec:` below).  The frontend JavaScript is embedded
directly from the source files.

Currency amounts and ratios are modelled as rationals (`ℚ`); JS numbers in the
geometry/sorting pipeline are modelled as reals (`ℝ`); day counts as integers.
Absent/null values are `Option.none`.
-/

namespace CharityMap

/-- Modelled from the spec: one filing year for one charity (`AnnualReturn` in
`backend/models.py`, absent from the checkout): `income` (≥0), `expenditure`
(≥0), `reserves` (may be absent), `filing_date` (a calendar day, encoded as a
day ordinal), `year` (ordinal). -/
structure AnnualReturn where
  income : ℚ
  expenditure : ℚ
  reserves : Option ℚ
  filing_date : ℤ
  year : ℤ

/-- Modelled from the spec: the per-charity derived Financial Profile.  Every
derived ratio is `none` (absent) when its denominator is unavailable or
non-positive. -/
structure FinancialProfile where
  reserves_months : Option ℚ
  income_change_pct : Option ℚ
  spend_ratio : Option ℚ
  latest_income : Option ℚ
  days_since_filing : Option ℤ

/-- Modelled from the spec: the history is sorted ascending by `year` (the
builder sorts a copy, never mutating its input). -/
def sortedHistory (history : List AnnualReturn) : List AnnualReturn :=
  List.insertionSort (fun a b => a.year ≤ b.year) history

/-- Modelled from the spec: `latest` = most recent Annual Return of the sorted
history, absent when the history is empty. -/
def latestOf (history : List AnnualReturn) : Option AnnualReturn :=
  (sortedHistory history).getLast?

/-- Modelled from the spec: `previous` = return immediately preceding `latest`,
absent if fewer than two years of history exist. -/
def previousOf (history : List AnnualReturn) : Option AnnualReturn :=
  (sortedHistory history).dropLast.getLast?

/-- Modelled from the spec: `reserves_months = (latest.reserves /
latest.expenditure) × 12` when `latest.expenditure > 0` and `latest.reserves`
is present, else absent. -/
def reservesMonthsOf : Option AnnualReturn → Option ℚ
  | none => none
  | some l =>
    match l.reserves with
    | none => none
    | some r => if 0 < l.expenditure then some (r / l.expenditure * 12) else none

/-- Modelled from the spec: `income_change_pct = (latest.income −
previous.income) / previous.income` when `previous` is present and
`previous.income > 0`, else absent. -/
def incomeChangeOf : Option AnnualReturn → Option AnnualReturn → Option ℚ
  | none, _ => none
  | _, none => none
  | some l, some p =>
    if 0 < p.income then some ((l.income - p.income) / p.income) else none

/-- Modelled from the spec: `spend_ratio = latest.expenditure / latest.income`
when `latest.income > 0`, else absent. -/
def spendRatioOf : Option AnnualReturn → Option ℚ
  | none => none
  | some l => if 0 < l.income then some (l.expenditure / l.income) else none

/-- Modelled from the spec: `deriveProfile(history, asOf)` — builds the
Financial Profile from an annual-return history and an explicit evaluation
date (`compute_need_scores` profile derivation in `backend/processing.py`,
absent from the checkout).  An empty history yields a profile with every
derived field absent. -/
def deriveProfile (history : List AnnualReturn) (asOf : ℤ) : FinancialProfile :=
  let latest := latestOf history
  { reserves_months := reservesMonthsOf latest
    income_change_pct := incomeChangeOf latest (previousOf history)
    spend_ratio := spendRatioOf latest
    latest_income := latest.map (fun l => l.income)
    days_since_filing := latest.map (fun l => asOf - l.filing_date) }

/-- Modelled from the spec: the Need Score output record — five factor point
values and their bounded total. -/
structure NeedScore where
  low_reserves : ℕ
  income_declining : ℕ
  overspending : ℕ
  small_charity : ℕ
  late_filing : ℕ
  total : ℕ

/-- Modelled from the spec: `low_reserves` band evaluator — reserves_months
`<1 → 30; <3 → 20; <6 → 10; else 0`; absent signal awards 0. -/
def lowReservesPoints : Option ℚ → ℕ
  | none => 0
  | some m => if m < 1 then 30 else if m < 3 then 20 else if m < 6 then 10 else 0

/-- Modelled from the spec: `income_declining` band evaluator —
income_change_pct `<−0.30 → 25; <−0.10 → 15; <0 → 5; else 0`; absent
signal awards 0. -/
def incomeDecliningPoints : Option ℚ → ℕ
  | none => 0
  | some c =>
    if c < -(3/10) then 25 else if c < -(1/10) then 15 else if c < 0 then 5 else 0

/-- Modelled from the spec: `overspending` band evaluator — spend_ratio
`>1.2 → 20; >1.0 → 10; else 0`; absent signal awards 0. -/
def overspendingPoints : Option ℚ → ℕ
  | none => 0
  | some s => if 12/10 < s then 20 else if 1 < s then 10 else 0

/-- Modelled from the spec: `small_charity` band evaluator — latest.income
`<£10,000 → 15; <£100,000 → 10; <£1,000,000 → 5; else 0`; absent signal
awards 0. -/
def smallCharityPoints : Option ℚ → ℕ
  | none => 0
  | some i =>
    if i < 10000 then 15 else if i < 100000 then 10 else if i < 1000000 then 5 else 0

/-- Modelled from the spec: `late_filing` band evaluator — days_since_filing
`>730 → 10; >547 → 5; else 0`; absent signal awards 0. -/
def lateFilingPoints : Option ℤ → ℕ
  | none => 0
  | some d => if 730 < d then 10 else if 547 < d then 5 else 0

/-- Modelled from the spec: `computeNeedScore(profile)` — pure, total; the
five factor evaluators each map their signal through an ordered step function
and the factor points sum to the total (`compute_need_scores` in
`backend/processing.py`, absent from the checkout). -/
def computeNeedScore (p : FinancialProfile) : NeedScore :=
  let lr := lowReservesPoints p.reserves_months
  let idc := incomeDecliningPoints p.income_change_pct
  let ov := overspendingPoints p.spend_ratio
  let sc := smallCharityPoints p.latest_income
  let lf := lateFilingPoints p.days_since_filing
  { low_reserves := lr
    income_declining := idc
    overspending := ov
    small_charity := sc
    late_filing := lf
    total := lr + idc + ov + sc + lf }

/-- Modelled from the spec: anomaly rule identifiers, in declaration order. -/
inductive RuleId where
  | critical_reserves
  | income_drop
  | spending_mismatch
  | late_filing
  | excessive_reserves
  | income_spike
deriving DecidableEq

/-- Modelled from the spec: an Anomaly record — `rule_id`, `severity` (one of
the strings "critical", "warning", "info"), and a human-readable `message`
embedding the computed value. -/
structure Anomaly where
  rule_id : RuleId
  severity : String
  message : String

/-- Modelled from the spec: rule `critical_reserves` — fires iff
reserves_months is present and <1; severity critical. -/
def criticalReservesRule (p : FinancialProfile) : List Anomaly :=
  match p.reserves_months with
  | none => []
  | some m =>
    if m < 1 then
      [⟨RuleId.critical_reserves, "critical",
        "reserves cover " ++ toString m ++ " months of spending"⟩]
    else []

/-- Modelled from the spec: rule `income_drop` — fires iff income_change_pct
is present and <−0.30; severity critical. -/
def incomeDropRule (p : FinancialProfile) : List Anomaly :=
  match p.income_change_pct with
  | none => []
  | some c =>
    if c < -(3/10) then
      [⟨RuleId.income_drop, "critical",
        "income changed by " ++ toString (c * 100) ++ " percent year over year"⟩]
    else []

/-- Modelled from the spec: rule `spending_mismatch` — fires iff spend_ratio
is present and >1.3; severity warning. -/
def spendingMismatchRule (p : FinancialProfile) : List Anomaly :=
  match p.spend_ratio with
  | none => []
  | some s =>
    if 13/10 < s then
      [⟨RuleId.spending_mismatch, "warning",
        "spending is " ++ toString (s * 100) ++ " percent of income"⟩]
    else []

/-- Modelled from the spec: rule `late_filing` — fires iff days_since_filing
is present and >730; severity warning. -/
def lateFilingRule (p : FinancialProfile) : List Anomaly :=
  match p.days_since_filing with
  | none => []
  | some d =>
    if 730 < d then
      [⟨RuleId.late_filing, "warning",
        "last annual return filed " ++ toString d ++ " days ago"⟩]
    else []

/-- Modelled from the spec: rule `excessive_reserves` — fires iff
reserves_months is present and >36; severity info. -/
def excessiveReservesRule (p : FinancialProfile) : List Anomaly :=
  match p.reserves_months with
  | none => []
  | some m =>
    if 36 < m then
      [⟨RuleId.excessive_reserves, "info",
        "reserves cover " ++ toString m ++ " months of spending"⟩]
    else []

/-- Modelled from the spec: rule `income_spike` — fires iff income_change_pct
is present and >2.0; severity info. -/
def incomeSpikeRule (p : FinancialProfile) : List Anomaly :=
  match p.income_change_pct with
  | none => []
  | some c =>
    if 2 < c then
      [⟨RuleId.income_spike, "info",
        "income changed by " ++ toString (c * 100) ++ " percent year over year"⟩]
    else []

/-- Modelled from the spec: `detectAnomalies(profile)` — rules evaluated in
fixed declaration order, each appending at most one Anomaly
(`_detect_anomalies` in `backend/processing.py`, absent from the checkout). -/
def detectAnomalies (p : FinancialProfile) : List Anomaly :=
  criticalReservesRule p ++ incomeDropRule p ++ spendingMismatchRule p ++
    lateFilingRule p ++ excessiveReservesRule p ++ incomeSpikeRule p

/-- The rule ids of the anomalies fired for a profile, in evaluation order. -/
def firedRules (p : FinancialProfile) : List RuleId :=
  (detectAnomalies p).map Anomaly.rule_id

/-- Scenario A input from the spec: a two-year history whose previous year
had income 150,000 and whose latest year has income 100,000, expenditure
120,000, reserves 5,000, filed on the evaluation date. -/
def scenarioAHistory : List AnnualReturn :=
  [⟨150000, 130000, none, 0, 1⟩, ⟨100000, 120000, some 5000, 0, 2⟩]

/-- The Financial Profile derived for Scenario A at evaluation date 0. -/
def scenarioAProfile : FinancialProfile :=
  deriveProfile scenarioAHistory 0

end CharityMap

namespace CharityMap.Frontend

/-- From `frontend/js/utils.js` `getScoreColor`: score ≥75 → dark red,
≥50 → rose, ≥25 → amber, else teal. -/
def getScoreColor (score : ℚ) : String :=
  if score ≥ 75 then "#dc2626"
  else if score ≥ 50 then "#f43f5e"
  else if score ≥ 25 then "#f59e0b"
  else "#2dd4bf"

/-- From `frontend/js/utils.js` `getScoreClass`: score ≥75 → need-critical,
≥50 → need-high, ≥25 → need-medium, else need-low. -/
def getScoreClass (score : ℚ) : String :=
  if score ≥ 75 then "need-critical"
  else if score ≥ 50 then "need-high"
  else if score ≥ 25 then "need-medium"
  else "need-low"

/-- From `frontend/js/filters.js`: a charity record as the single-category
filter module sees it — `category` may be null. -/
structure CatCharity where
  name : String
  category : Option String

/-- From `frontend/js/filters.js` `applyFilters`: with no active category the
input is returned unchanged; otherwise only charities whose `category` equals
the active one are kept. -/
def applyFilters (activeCategory : Option String) (charities : List CatCharity) :
    List CatCharity :=
  match activeCategory with
  | none => charities
  | some a => charities.filter (fun c => c.category == some a)

/-- From `src/unnamed/part_000` filters module: a charity record as the
multi-category filter module sees it — `cat` is a possibly-null list of
category tags. -/
structure TagCharity where
  name : String
  cat : Option (List String)

/-- From `src/unnamed/part_000` `applyFilters`: with an empty active-filter
set the input is returned unchanged; otherwise only charities with a non-null
`cat` list containing some active category are kept. -/
def applyFiltersSet (activeFilters : List String) (charities : List TagCharity) :
    List TagCharity :=
  if activeFilters.isEmpty then charities
  else
    charities.filter (fun c =>
      match c.cat with
      | none => false
      | some l => l.any (fun t => activeFilters.contains t))

/-- From `frontend/js/utils.js` `haversine`: two-argument arctangent, as JS
`Math.atan2(y, x)`, realised as the argument of the complex number x + y·i. -/
noncomputable def atan2 (y x : ℝ) : ℝ :=
  Complex.arg (Complex.mk x y)

/-- From `frontend/js/utils.js` `haversine`: great-circle distance in km
between two latitude/longitude pairs (degrees), Earth radius 6371 km. -/
noncomputable def haversine (lat1 lon1 lat2 lon2 : ℝ) : ℝ :=
  let r : ℝ := 6371
  let dLat := (lat2 - lat1) * Real.pi / 180
  let dLon := (lon2 - lon1) * Real.pi / 180
  let a :=
    Real.sin (dLat / 2) * Real.sin (dLat / 2) +
      Real.cos (lat1 * Real.pi / 180) * Real.cos (lat2 * Real.pi / 180) *
        (Real.sin (dLon / 2) * Real.sin (dLon / 2))
  r * 2 * atan2 (Real.sqrt a) (Real.sqrt (1 - a))

/-- From `src/unnamed/part_002` (app.js): the fields of a dataset record that
`displayResults` consults — nullable coordinates and the need score `ns`. -/
structure Charity where
  n : String
  lat : Option ℝ
  lng : Option ℝ
  ns : ℝ

/-- From `src/unnamed/part_002` (app.js): a search result — the spread of the
original record plus its computed `distance` from the search centre. -/
structure RankedCharity where
  base : Charity
  distance : ℝ

open scoped Classical in
/-- From `src/unnamed/part_002` `displayResults`: the value assigned to
`currentResults` — keep records with non-null lat/lng, attach the haversine
distance from the search centre, keep those within the radius, and sort by
descending need score (`.sort((a, b) => b.ns - a.ns)`). -/
noncomputable def currentResultsOf (allData : List Charity)
    (lat lng searchRadius : ℝ) : List RankedCharity :=
  List.insertionSort (fun a b => b.base.ns ≤ a.base.ns)
    (((allData.filter (fun c => c.lat.isSome && c.lng.isSome)).map
        (fun c => ⟨c, haversine lat lng (c.lat.getD 0) (c.lng.getD 0)⟩)).filter
      (fun rc => decide (rc.distance ≤ searchRadius)))

end CharityMap.Frontend

namespace CharityMap

theorem lowReservesPoints_le (x : Option ℚ) : lowReservesPoints x ≤ 30 := by
  cases x with
  | none => simp [lowReservesPoints]
  | some m => simp only [lowReservesPoints]; split_ifs <;> omega

theorem incomeDecliningPoints_le (x : Option ℚ) : incomeDecliningPoints x ≤ 25 := by
  cases x with
  | none => simp [incomeDecliningPoints]
  | some m => simp only [incomeDecliningPoints]; split_ifs <;> omega

theorem overspendingPoints_le (x : Option ℚ) : overspendingPoints x ≤ 20 := by
  cases x with
  | none => simp [overspendingPoints]
  | some m => simp only [overspendingPoints]; split_ifs <;> omega

theorem smallCharityPoints_le (x : Option ℚ) : smallCharityPoints x ≤ 15 := by
  cases x with
  | none => simp [smallCharityPoints]
  | some m => simp only [smallCharityPoints]; split_ifs <;> omega

theorem lateFilingPoints_le (x : Option ℤ) : lateFilingPoints x ≤ 10 := by
  cases x with
  | none => simp [lateFilingPoints]
  | some m => simp only [lateFilingPoints]; split_ifs <;> omega

/-- C2: for every Financial Profile the Need Score total equals the sum of the
five returned factor points and satisfies 0 ≤ total ≤ 100. -/
theorem computeNeedScore_total_eq_sum_and_bounded (p : FinancialProfile) :
    (computeNeedScore p).total =
      (computeNeedScore p).low_reserves + (computeNeedScore p).income_declining +
        (computeNeedScore p).overspending + (computeNeedScore p).small_charity +
        (computeNeedScore p).late_filing ∧
    0 ≤ (computeNeedScore p).total ∧ (computeNeedScore p).total ≤ 100 := by
  refine ⟨rfl, Nat.zero_le _, ?_⟩
  have h1 := lowReservesPoints_le p.reserves_months
  have h2 := incomeDecliningPoints_le p.income_change_pct
  have h3 := overspendingPoints_le p.spend_ratio
  have h4 := smallCharityPoints_le p.latest_income
  have h5 := lateFilingPoints_le p.days_since_filing
  simp only [computeNeedScore]
  omega

end CharityMap

namespace CharityMap.Frontend

/-- C10: `getScoreColor` and `getScoreClass` classify every score into the
same band: each colour is returned if and only if the corresponding CSS class
is returned, both using cutoffs 75, 50, 25. -/
theorem getScoreColor_class_agree (s : ℚ) :
    (getScoreColor s = "#dc2626" ↔ getScoreClass s = "need-critical") ∧
    (getScoreColor s = "#f43f5e" ↔ getScoreClass s = "need-high") ∧
    (getScoreColor s = "#f59e0b" ↔ getScoreClass s = "need-medium") ∧
    (getScoreColor s = "#2dd4bf" ↔ getScoreClass s = "need-low") := by
  unfold getScoreColor getScoreClass
  split_ifs <;> refine ⟨⟨?_, ?_⟩, ⟨?_, ?_⟩, ⟨?_, ?_⟩, ⟨?_, ?_⟩⟩ <;> intro h <;>
    first | rfl | (exfalso; revert h; decide)

end CharityMap.Frontend

namespace CharityMap

/-- C6: band monotonicity of the five factor evaluators — for each factor a
more severe present signal value (smaller reserves_months, smaller (more
negative) income_change_pct, larger spend_ratio, smaller latest income,
larger days_since_filing) never yields fewer points; in particular
reserves_months = 0.5 receives at least as many low_reserves points as
reserves_months = 2. -/
theorem factor_bands_monotone :
    (∀ a b : ℚ, a ≤ b → lowReservesPoints (some b) ≤ lowReservesPoints (some a)) ∧
    (∀ a b : ℚ, a ≤ b →
      incomeDecliningPoints (some b) ≤ incomeDecliningPoints (some a)) ∧
    (∀ a b : ℚ, a ≤ b → overspendingPoints (some a) ≤ overspendingPoints (some b)) ∧
    (∀ a b : ℚ, a ≤ b → smallCharityPoints (some b) ≤ smallCharityPoints (some a)) ∧
    (∀ a b : ℤ, a ≤ b → lateFilingPoints (some a) ≤ lateFilingPoints (some b)) ∧
    lowReservesPoints (some 2) ≤ lowReservesPoints (some (1/2)) := by
  refine ⟨?_, ?_, ?_, ?_, ?_, ?_⟩
  · intro a b h; simp only [lowReservesPoints]; split_ifs <;> first | omega | linarith
  · intro a b h; simp only [incomeDecliningPoints]
    split_ifs <;> first | omega | linarith
  · intro a b h; simp only [overspendingPoints]; split_ifs <;> first | omega | linarith
  · intro a b h; simp only [smallCharityPoints]; split_ifs <;> first | omega | linarith
  · intro a b h; simp only [lateFilingPoints]; split_ifs <;> omega
  · norm_num [lowReservesPoints]

/-- Witness for C6: the monotonicity theorem applied at the concrete pair
0 ≤ 2 for the reserves factor. -/
theorem factor_bands_monotone_witness :
    (0 : ℚ) ≤ 2 ∧ lowReservesPoints (some 2) ≤ lowReservesPoints (some 0) :=
  ⟨by norm_num, factor_bands_monotone.1 0 2 (by norm_num)⟩

/-- C4: a profile with every signal absent (in particular the profile derived
from an empty Annual Return history) scores 0 on every factor and in total,
and produces no anomalies. -/
theorem allAbsent_scores_zero_no_anomalies :
    (∀ p : FinancialProfile, p.reserves_months = none →
      p.income_change_pct = none → p.spend_ratio = none →
      p.latest_income = none → p.days_since_filing = none →
      (computeNeedScore p).total = 0 ∧
      (computeNeedScore p).low_reserves = 0 ∧
      (computeNeedScore p).income_declining = 0 ∧
      (computeNeedScore p).overspending = 0 ∧
      (computeNeedScore p).small_charity = 0 ∧
      (computeNeedScore p).late_filing = 0 ∧
      detectAnomalies p = []) ∧
    ∀ asOf : ℤ, deriveProfile [] asOf =
      ⟨none, none, none, none, none⟩ := by
  constructor
  · intro p h1 h2 h3 h4 h5
    simp [computeNeedScore, detectAnomalies, criticalReservesRule, incomeDropRule,
      spendingMismatchRule, lateFilingRule, excessiveReservesRule, incomeSpikeRule,
      lowReservesPoints, incomeDecliningPoints, overspendingPoints,
      smallCharityPoints, lateFilingPoints, h1, h2, h3, h4, h5]
  · intro asOf; rfl

/-- Witness for C4: the theorem applied to the profile derived from the empty
history, whose fields are all absent by computation. -/
theorem allAbsent_scores_zero_no_anomalies_witness :
    (computeNeedScore (deriveProfile [] 0)).total = 0 ∧
    detectAnomalies (deriveProfile [] 0) = [] := by
  have h := allAbsent_scores_zero_no_anomalies.1 (deriveProfile [] 0)
    rfl rfl rfl rfl rfl
  exact ⟨h.1, h.2.2.2.2.2.2⟩

end CharityMap

namespace CharityMap

theorem mem_criticalReservesRule {p : FinancialProfile} {a : Anomaly}
    (h : a ∈ criticalReservesRule p) :
    a.rule_id = RuleId.critical_reserves ∧ a.severity = "critical" ∧
      ∃ m, p.reserves_months = some m ∧ m < 1 := by
  cases hx : p.reserves_months with
  | none => simp [criticalReservesRule, hx] at h
  | some m =>
    simp only [criticalReservesRule, hx] at h
    split_ifs at h with hm
    · simp at h; subst h; exact ⟨rfl, rfl, m, rfl, hm⟩
    · simp at h

theorem mem_incomeDropRule {p : FinancialProfile} {a : Anomaly}
    (h : a ∈ incomeDropRule p) :
    a.rule_id = RuleId.income_drop ∧ a.severity = "critical" ∧
      ∃ c, p.income_change_pct = some c ∧ c < -(3/10) := by
  cases hx : p.income_change_pct with
  | none => simp [incomeDropRule, hx] at h
  | some c =>
    simp only [incomeDropRule, hx] at h
    split_ifs at h with hc
    · simp at h; subst h; exact ⟨rfl, rfl, c, rfl, hc⟩
    · simp at h

theorem mem_spendingMismatchRule {p : FinancialProfile} {a : Anomaly}
    (h : a ∈ spendingMismatchRule p) :
    a.rule_id = RuleId.spending_mismatch ∧ a.severity = "warning" ∧
      ∃ s, p.spend_ratio = some s ∧ 13/10 < s := by
  cases hx : p.spend_ratio with
  | none => simp [spendingMismatchRule, hx] at h
  | some s =>
    simp only [spendingMismatchRule, hx] at h
    split_ifs at h with hs
    · simp at h; subst h; exact ⟨rfl, rfl, s, rfl, hs⟩
    · simp at h

theorem mem_lateFilingRule {p : FinancialProfile} {a : Anomaly}
    (h : a ∈ lateFilingRule p) :
    a.rule_id = RuleId.late_filing ∧ a.severity = "warning" ∧
      ∃ d, p.days_since_filing = some d ∧ 730 < d := by
  cases hx : p.days_since_filing with
  | none => simp [lateFilingRule, hx] at h
  | some d =>
    simp only [lateFilingRule, hx] at h
    split_ifs at h with hd
    · simp at h; subst h; exact ⟨rfl, rfl, d, rfl, hd⟩
    · simp at h

theorem mem_excessiveReservesRule {p : FinancialProfile} {a : Anomaly}
    (h : a ∈ excessiveReservesRule p) :
    a.rule_id = RuleId.excessive_reserves ∧ a.severity = "info" ∧
      ∃ m, p.reserves_months = some m ∧ 36 < m := by
  cases hx : p.reserves_months with
  | none => simp [excessiveReservesRule, hx] at h
  | some m =>
    simp only [excessiveReservesRule, hx] at h
    split_ifs at h with hm
    · simp at h; subst h; exact ⟨rfl, rfl, m, rfl, hm⟩
    · simp at h

theorem mem_incomeSpikeRule {p : FinancialProfile} {a : Anomaly}
    (h : a ∈ incomeSpikeRule p) :
    a.rule_id = RuleId.income_spike ∧ a.severity = "info" ∧
      ∃ c, p.income_change_pct = some c ∧ 2 < c := by
  cases hx : p.income_change_pct with
  | none => simp [incomeSpikeRule, hx] at h
  | some c =>
    simp only [incomeSpikeRule, hx] at h
    split_ifs at h with hc
    · simp at h; subst h; exact ⟨rfl, rfl, c, rfl, hc⟩
    · simp at h

theorem mem_detectAnomalies_cases {p : FinancialProfile} {a : Anomaly}
    (h : a ∈ detectAnomalies p) :
    a ∈ criticalReservesRule p ∨ a ∈ incomeDropRule p ∨
      a ∈ spendingMismatchRule p ∨ a ∈ lateFilingRule p ∨
      a ∈ excessiveReservesRule p ∨ a ∈ incomeSpikeRule p := by
  simpa [detectAnomalies, List.mem_append, or_assoc] using h

theorem critical_reserves_fired_iff (p : FinancialProfile) :
    RuleId.critical_reserves ∈ firedRules p ↔
      ∃ m, p.reserves_months = some m ∧ m < 1 := by
  constructor
  · intro hmem
    obtain ⟨a, ha, hid⟩ := List.mem_map.mp hmem
    rcases mem_detectAnomalies_cases ha with h1 | h1 | h1 | h1 | h1 | h1
    · exact (mem_criticalReservesRule h1).2.2
    · exact absurd ((mem_incomeDropRule h1).1.symm.trans hid) (by decide)
    · exact absurd ((mem_spendingMismatchRule h1).1.symm.trans hid) (by decide)
    · exact absurd ((mem_lateFilingRule h1).1.symm.trans hid) (by decide)
    · exact absurd ((mem_excessiveReservesRule h1).1.symm.trans hid) (by decide)
    · exact absurd ((mem_incomeSpikeRule h1).1.symm.trans hid) (by decide)
  · rintro ⟨m, hm, hlt⟩
    apply List.mem_map.mpr
    refine ⟨⟨RuleId.critical_reserves, "critical",
      "reserves cover " ++ toString m ++ " months of spending"⟩, ?_, rfl⟩
    simp [detectAnomalies, List.mem_append, criticalReservesRule, incomeDropRule,
      spendingMismatchRule, lateFilingRule, excessiveReservesRule, incomeSpikeRule,
      hm, hlt]

theorem income_drop_fired_iff (p : FinancialProfile) :
    RuleId.income_drop ∈ firedRules p ↔
      ∃ c, p.income_change_pct = some c ∧ c < -(3/10) := by
  constructor
  · intro hmem
    obtain ⟨a, ha, hid⟩ := List.mem_map.mp hmem
    rcases mem_detectAnomalies_cases ha with h1 | h1 | h1 | h1 | h1 | h1
    · exact absurd ((mem_criticalReservesRule h1).1.symm.trans hid) (by decide)
    · exact (mem_incomeDropRule h1).2.2
    · exact absurd ((mem_spendingMismatchRule h1).1.symm.trans hid) (by decide)
    · exact absurd ((mem_lateFilingRule h1).1.symm.trans hid) (by decide)
    · exact absurd ((mem_excessiveReservesRule h1).1.symm.trans hid) (by decide)
    · exact absurd ((mem_incomeSpikeRule h1).1.symm.trans hid) (by decide)
  · rintro ⟨c, hc, hlt⟩
    apply List.mem_map.mpr
    refine ⟨⟨RuleId.income_drop, "critical",
      "income changed by " ++ toString (c * 100) ++ " percent year over year"⟩,
      ?_, rfl⟩
    simp [detectAnomalies, List.mem_append, criticalReservesRule, incomeDropRule,
      spendingMismatchRule, lateFilingRule, excessiveReservesRule, incomeSpikeRule,
      hc, hlt]

theorem spending_mismatch_fired_iff (p : FinancialProfile) :
    RuleId.spending_mismatch ∈ firedRules p ↔
      ∃ s, p.spend_ratio = some s ∧ 13/10 < s := by
  constructor
  · intro hmem
    obtain ⟨a, ha, hid⟩ := List.mem_map.mp hmem
    rcases mem_detectAnomalies_cases ha with h1 | h1 | h1 | h1 | h1 | h1
    · exact absurd ((mem_criticalReservesRule h1).1.symm.trans hid) (by decide)
    · exact absurd ((mem_incomeDropRule h1).1.symm.trans hid) (by decide)
    · exact (mem_spendingMismatchRule h1).2.2
    · exact absurd ((mem_lateFilingRule h1).1.symm.trans hid) (by decide)
    · exact absurd ((mem_excessiveReservesRule h1).1.symm.trans hid) (by decide)
    · exact absurd ((mem_incomeSpikeRule h1).1.symm.trans hid) (by decide)
  · rintro ⟨s, hs, hlt⟩
    apply List.mem_map.mpr
    refine ⟨⟨RuleId.spending_mismatch, "warning",
      "spending is " ++ toString (s * 100) ++ " percent of income"⟩, ?_, rfl⟩
    simp [detectAnomalies, List.mem_append, criticalReservesRule, incomeDropRule,
      spendingMismatchRule, lateFilingRule, excessiveReservesRule, incomeSpikeRule,
      hs, hlt]

theorem excessive_reserves_fired_iff (p : FinancialProfile) :
    RuleId.excessive_reserves ∈ firedRules p ↔
      ∃ m, p.reserves_months = some m ∧ 36 < m := by
  constructor
  · intro hmem
    obtain ⟨a, ha, hid⟩ := List.mem_map.mp hmem
    rcases mem_detectAnomalies_cases ha with h1 | h1 | h1 | h1 | h1 | h1
    · exact absurd ((mem_criticalReservesRule h1).1.symm.trans hid) (by decide)
    · exact absurd ((mem_incomeDropRule h1).1.symm.trans hid) (by decide)
    · exact absurd ((mem_spendingMismatchRule h1).1.symm.trans hid) (by decide)
    · exact absurd ((mem_lateFilingRule h1).1.symm.trans hid) (by decide)
    · exact (mem_excessiveReservesRule h1).2.2
    · exact absurd ((mem_incomeSpikeRule h1).1.symm.trans hid) (by decide)
  · rintro ⟨m, hm, hlt⟩
    apply List.mem_map.mpr
    refine ⟨⟨RuleId.excessive_reserves, "info",
      "reserves cover " ++ toString m ++ " months of spending"⟩, ?_, rfl⟩
    simp [detectAnomalies, List.mem_append, criticalReservesRule, incomeDropRule,
      spendingMismatchRule, lateFilingRule, excessiveReservesRule, incomeSpikeRule,
      hm, hlt]

theorem income_spike_fired_iff (p : FinancialProfile) :
    RuleId.income_spike ∈ firedRules p ↔
      ∃ c, p.income_change_pct = some c ∧ 2 < c := by
  constructor
  · intro hmem
    obtain ⟨a, ha, hid⟩ := List.mem_map.mp hmem
    rcases mem_detectAnomalies_cases ha with h1 | h1 | h1 | h1 | h1 | h1
    · exact absurd ((mem_criticalReservesRule h1).1.symm.trans hid) (by decide)
    · exact absurd ((mem_incomeDropRule h1).1.symm.trans hid) (by decide)
    · exact absurd ((mem_spendingMismatchRule h1).1.symm.trans hid) (by decide)
    · exact absurd ((mem_lateFilingRule h1).1.symm.trans hid) (by decide)
    · exact absurd ((mem_excessiveReservesRule h1).1.symm.trans hid) (by decide)
    · exact (mem_incomeSpikeRule h1).2.2
  · rintro ⟨c, hc, hlt⟩
    apply List.mem_map.mpr
    refine ⟨⟨RuleId.income_spike, "info",
      "income changed by " ++ toString (c * 100) ++ " percent year over year"⟩,
      ?_, rfl⟩
    simp [detectAnomalies, List.mem_append, criticalReservesRule, incomeDropRule,
      spendingMismatchRule, lateFilingRule, excessiveReservesRule, incomeSpikeRule,
      hc, hlt]

end CharityMap

namespace CharityMap

theorem low_reserves_absent_zero (p : FinancialProfile)
    (h : p.reserves_months = none) :
    (computeNeedScore p).low_reserves = 0 ∧
      RuleId.critical_reserves ∉ firedRules p ∧
      RuleId.excessive_reserves ∉ firedRules p := by
  refine ⟨by simp [computeNeedScore, lowReservesPoints, h], ?_, ?_⟩
  · rw [critical_reserves_fired_iff]
    rintro ⟨m, hm, -⟩; rw [h] at hm; cases hm
  · rw [excessive_reserves_fired_iff]
    rintro ⟨m, hm, -⟩; rw [h] at hm; cases hm

theorem income_change_absent_zero (p : FinancialProfile)
    (h : p.income_change_pct = none) :
    (computeNeedScore p).income_declining = 0 ∧
      RuleId.income_drop ∉ firedRules p ∧
      RuleId.income_spike ∉ firedRules p := by
  refine ⟨by simp [computeNeedScore, incomeDecliningPoints, h], ?_, ?_⟩
  · rw [income_drop_fired_iff]
    rintro ⟨c, hc, -⟩; rw [h] at hc; cases hc
  · rw [income_spike_fired_iff]
    rintro ⟨c, hc, -⟩; rw [h] at hc; cases hc

theorem spend_ratio_absent_zero (p : FinancialProfile)
    (h : p.spend_ratio = none) :
    (computeNeedScore p).overspending = 0 ∧
      RuleId.spending_mismatch ∉ firedRules p := by
  refine ⟨by simp [computeNeedScore, overspendingPoints, h], ?_⟩
  rw [spending_mismatch_fired_iff]
  rintro ⟨s, hs, -⟩; rw [h] at hs; cases hs

/-- C1: every derived ratio of the Financial Profile is absent (not zero, not
infinite) when its denominator is unavailable or non-positive, and for every
absent signal the scorer awards 0 points for the corresponding factor and no
anomaly rule requiring that signal fires. -/
theorem absent_denominator_propagates (hist : List AnnualReturn) (asOf : ℤ) :
    (∀ l, latestOf hist = some l → l.expenditure ≤ 0 ∨ l.reserves = none →
      (deriveProfile hist asOf).reserves_months = none) ∧
    (previousOf hist = none →
      (deriveProfile hist asOf).income_change_pct = none) ∧
    (∀ pr, previousOf hist = some pr → pr.income ≤ 0 →
      (deriveProfile hist asOf).income_change_pct = none) ∧
    (∀ l, latestOf hist = some l → l.income ≤ 0 →
      (deriveProfile hist asOf).spend_ratio = none) ∧
    ((deriveProfile hist asOf).reserves_months = none →
      (computeNeedScore (deriveProfile hist asOf)).low_reserves = 0 ∧
      RuleId.critical_reserves ∉ firedRules (deriveProfile hist asOf) ∧
      RuleId.excessive_reserves ∉ firedRules (deriveProfile hist asOf)) ∧
    ((deriveProfile hist asOf).income_change_pct = none →
      (computeNeedScore (deriveProfile hist asOf)).income_declining = 0 ∧
      RuleId.income_drop ∉ firedRules (deriveProfile hist asOf) ∧
      RuleId.income_spike ∉ firedRules (deriveProfile hist asOf)) ∧
    ((deriveProfile hist asOf).spend_ratio = none →
      (computeNeedScore (deriveProfile hist asOf)).overspending = 0 ∧
      RuleId.spending_mismatch ∉ firedRules (deriveProfile hist asOf)) := by
  refine ⟨?_, ?_, ?_, ?_,
    low_reserves_absent_zero (deriveProfile hist asOf),
    income_change_absent_zero (deriveProfile hist asOf),
    spend_ratio_absent_zero (deriveProfile hist asOf)⟩
  · intro l hl hcond
    simp only [deriveProfile, hl]
    rcases hcond with hexp | hres
    · cases hr : l.reserves with
      | none => simp [reservesMonthsOf, hr]
      | some r => simp [reservesMonthsOf, hr, not_lt.mpr hexp]
    · simp [reservesMonthsOf, hres]
  · intro hp
    simp only [deriveProfile, hp]
    cases hl : latestOf hist <;> rfl
  · intro pr hp hinc
    simp only [deriveProfile, hp]
    cases hl : latestOf hist with
    | none => rfl
    | some l => simp [incomeChangeOf, not_lt.mpr hinc]
  · intro l hl hinc
    simp only [deriveProfile, hl]
    simp [spendRatioOf, not_lt.mpr hinc]

/-- Witness for C1: the propagation theorem applied to a one-year history
whose latest return has zero expenditure and no reserves figure — the derived
reserves ratio is absent, the factor awards 0 points and neither
reserves-based anomaly rule fires. -/
theorem absent_denominator_propagates_witness :
    (deriveProfile [⟨500, 0, none, 0, 1⟩] 0).reserves_months = none ∧
    (computeNeedScore (deriveProfile [⟨500, 0, none, 0, 1⟩] 0)).low_reserves = 0 ∧
    RuleId.critical_reserves ∉ firedRules (deriveProfile [⟨500, 0, none, 0, 1⟩] 0) := by
  have h := absent_denominator_propagates [⟨500, 0, none, 0, 1⟩] 0
  have habs : (deriveProfile [⟨500, 0, none, 0, 1⟩] 0).reserves_months = none :=
    h.1 ⟨500, 0, none, 0, 1⟩ rfl (Or.inl (by norm_num))
  have hz := h.2.2.2.2.1 habs
  exact ⟨habs, hz.1, hz.2.1⟩

/-- C5: every anomaly produced by detectAnomalies carries a severity drawn
from the enumeration critical, warning, info. -/
theorem detectAnomalies_severity_enum (p : FinancialProfile) (a : Anomaly)
    (h : a ∈ detectAnomalies p) :
    a.severity = "critical" ∨ a.severity = "warning" ∨ a.severity = "info" := by
  rcases mem_detectAnomalies_cases h with h1 | h1 | h1 | h1 | h1 | h1
  · exact Or.inl (mem_criticalReservesRule h1).2.1
  · exact Or.inl (mem_incomeDropRule h1).2.1
  · exact Or.inr (Or.inl (mem_spendingMismatchRule h1).2.1)
  · exact Or.inr (Or.inl (mem_lateFilingRule h1).2.1)
  · exact Or.inr (Or.inr (mem_excessiveReservesRule h1).2.1)
  · exact Or.inr (Or.inr (mem_incomeSpikeRule h1).2.1)

/-- Witness for C5: the severity theorem applied to the anomaly fired by a
profile with zero months of reserves. -/
theorem detectAnomalies_severity_enum_witness :
    (Anomaly.mk RuleId.critical_reserves "critical"
        ("reserves cover " ++ toString (0 : ℚ) ++ " months of spending")).severity
        = "critical" ∨
    (Anomaly.mk RuleId.critical_reserves "critical"
        ("reserves cover " ++ toString (0 : ℚ) ++ " months of spending")).severity
        = "warning" ∨
    (Anomaly.mk RuleId.critical_reserves "critical"
        ("reserves cover " ++ toString (0 : ℚ) ++ " months of spending")).severity
        = "info" :=
  detectAnomalies_severity_enum ⟨some 0, none, none, none, none⟩ _
    (by norm_num [detectAnomalies, List.mem_append, criticalReservesRule,
      incomeDropRule, spendingMismatchRule, lateFilingRule,
      excessiveReservesRule, incomeSpikeRule])

theorem criticalReservesRule_length (p : FinancialProfile) :
    (criticalReservesRule p).length ≤ 1 := by
  cases hx : p.reserves_months with
  | none => simp [criticalReservesRule, hx]
  | some m => simp only [criticalReservesRule, hx]; split_ifs <;> simp

theorem incomeDropRule_length (p : FinancialProfile) :
    (incomeDropRule p).length ≤ 1 := by
  cases hx : p.income_change_pct with
  | none => simp [incomeDropRule, hx]
  | some c => simp only [incomeDropRule, hx]; split_ifs <;> simp

theorem spendingMismatchRule_length (p : FinancialProfile) :
    (spendingMismatchRule p).length ≤ 1 := by
  cases hx : p.spend_ratio with
  | none => simp [spendingMismatchRule, hx]
  | some s => simp only [spendingMismatchRule, hx]; split_ifs <;> simp

theorem lateFilingRule_length (p : FinancialProfile) :
    (lateFilingRule p).length ≤ 1 := by
  cases hx : p.days_since_filing with
  | none => simp [lateFilingRule, hx]
  | some d => simp only [lateFilingRule, hx]; split_ifs <;> simp

theorem excessiveReservesRule_length (p : FinancialProfile) :
    (excessiveReservesRule p).length ≤ 1 := by
  cases hx : p.reserves_months with
  | none => simp [excessiveReservesRule, hx]
  | some m => simp only [excessiveReservesRule, hx]; split_ifs <;> simp

theorem incomeSpikeRule_length (p : FinancialProfile) :
    (incomeSpikeRule p).length ≤ 1 := by
  cases hx : p.income_change_pct with
  | none => simp [incomeSpikeRule, hx]
  | some c => simp only [incomeSpikeRule, hx]; split_ifs <;> simp

/-- C7: each of the six independent rules contributes at most one anomaly, so
the output has between 0 and 6 entries; and a profile with reserves_months =
0.5 and income_change_pct = −0.5 fires both critical_reserves and income_drop
in the same output. -/
theorem detectAnomalies_rules_independent (p : FinancialProfile) :
    (detectAnomalies p).length ≤ 6 ∧
    (p.reserves_months = some (1/2) → p.income_change_pct = some (-(1/2)) →
      RuleId.critical_reserves ∈ firedRules p ∧
      RuleId.income_drop ∈ firedRules p) := by
  constructor
  · have h1 := criticalReservesRule_length p
    have h2 := incomeDropRule_length p
    have h3 := spendingMismatchRule_length p
    have h4 := lateFilingRule_length p
    have h5 := excessiveReservesRule_length p
    have h6 := incomeSpikeRule_length p
    simp only [detectAnomalies, List.length_append]
    omega
  · intro h1 h2
    exact ⟨(critical_reserves_fired_iff p).mpr ⟨1/2, h1, by norm_num⟩,
      (income_drop_fired_iff p).mpr ⟨-(1/2), h2, by norm_num⟩⟩

/-- Witness for C7: the independence theorem applied to the concrete profile
with reserves_months = 0.5 and income_change_pct = −0.5 — both critical rules
fire in one output of at most six anomalies. -/
theorem detectAnomalies_rules_independent_witness :
    (detectAnomalies ⟨some (1/2), some (-(1/2)), none, none, none⟩).length ≤ 6 ∧
    RuleId.critical_reserves ∈
      firedRules ⟨some (1/2), some (-(1/2)), none, none, none⟩ ∧
    RuleId.income_drop ∈
      firedRules ⟨some (1/2), some (-(1/2)), none, none, none⟩ := by
  have h := detectAnomalies_rules_independent
    ⟨some (1/2), some (-(1/2)), none, none, none⟩
  exact ⟨h.1, h.2 rfl rfl⟩

/-- C3: Scenario A — latest income 100,000, previous income 150,000, latest
expenditure 120,000, latest reserves 5,000, filed on the evaluation date
(days_since_filing = 0 ≤ 547): reserves_months = 0.5 (30 pts),
income_change_pct = −1/3 (25 pts), spend_ratio = 1.2 (10 pts, not strictly
greater than 1.2), income below £1,000,000 (5 pts), late_filing 0 pts, total
70; and exactly critical_reserves and income_drop fire, in rule order. -/
theorem scenarioA_score_and_anomalies :
    scenarioAProfile.reserves_months = some (1/2) ∧
    scenarioAProfile.income_change_pct = some (-(1/3)) ∧
    scenarioAProfile.spend_ratio = some (6/5) ∧
    scenarioAProfile.days_since_filing = some 0 ∧
    (computeNeedScore scenarioAProfile).low_reserves = 30 ∧
    (computeNeedScore scenarioAProfile).income_declining = 25 ∧
    (computeNeedScore scenarioAProfile).overspending = 10 ∧
    (computeNeedScore scenarioAProfile).small_charity = 5 ∧
    (computeNeedScore scenarioAProfile).late_filing = 0 ∧
    (computeNeedScore scenarioAProfile).total = 70 ∧
    firedRules scenarioAProfile =
      [RuleId.critical_reserves, RuleId.income_drop] := by
  norm_num [scenarioAProfile, scenarioAHistory, deriveProfile, latestOf,
    previousOf, sortedHistory,
    List.insertionSort, List.orderedInsert, List.getLast?, List.dropLast,
    reservesMonthsOf, incomeChangeOf, spendRatioOf, computeNeedScore,
    lowReservesPoints, incomeDecliningPoints, overspendingPoints,
    smallCharityPoints, lateFilingPoints, firedRules, detectAnomalies,
    criticalReservesRule, incomeDropRule, spendingMismatchRule,
    lateFilingRule, excessiveReservesRule, incomeSpikeRule]

end CharityMap

namespace CharityMap.Frontend

/-- C9: `applyFilters` is the identity when no filter is active and an exact
selection otherwise — for the single-category module the result with an
active category `a` is the subsequence of charities whose `category` is `a`;
for the set-based module the result with a non-empty active set is the
subsequence of charities whose non-null tag list meets the active set. -/
theorem applyFilters_identity_or_selection :
    (∀ cs : List CatCharity, applyFilters none cs = cs) ∧
    (∀ (a : String) (cs : List CatCharity),
      (applyFilters (some a) cs).Sublist cs ∧
      ∀ c, c ∈ applyFilters (some a) cs ↔ c ∈ cs ∧ c.category = some a) ∧
    (∀ cs : List TagCharity, applyFiltersSet [] cs = cs) ∧
    (∀ (f : String) (fs : List String) (cs : List TagCharity),
      (applyFiltersSet (f :: fs) cs).Sublist cs ∧
      ∀ c, c ∈ applyFiltersSet (f :: fs) cs ↔
        c ∈ cs ∧ ∃ l, c.cat = some l ∧ ∃ t ∈ l, t ∈ f :: fs) := by
  refine ⟨fun cs => rfl, ?_, fun cs => rfl, ?_⟩
  · intro a cs
    refine ⟨List.filter_sublist cs, fun c => ?_⟩
    rw [applyFilters, List.mem_filter]
    simp
  · intro f fs cs
    constructor
    · simp only [applyFiltersSet, List.isEmpty_cons, Bool.false_eq_true,
        if_false]
      exact List.filter_sublist cs
    · intro c
      simp only [applyFiltersSet, List.isEmpty_cons, Bool.false_eq_true,
        if_false, List.mem_filter]
      cases hc : c.cat with
      | none => simp [hc]
      | some l =>
        simp [hc, List.any_eq_true, List.elem_iff]

end CharityMap.Frontend

namespace CharityMap.Frontend

/-- C8: the result list computed by `displayResults` and stored in
`currentResults` contains only charities with non-null lat and lng, attaches
to each exactly its haversine distance from the search centre, keeps only
those within the search radius, and is sorted in non-increasing order of the
need score `ns`; this holds for every centre, radius and dataset, hence on
every search and every radius change. -/
theorem currentResults_invariant (allData : List Charity)
    (lat lng searchRadius : ℝ) :
    (currentResultsOf allData lat lng searchRadius).Forall
      (fun rc => rc.base.lat.isSome = true ∧ rc.base.lng.isSome = true ∧
        rc.distance = haversine lat lng (rc.base.lat.getD 0) (rc.base.lng.getD 0) ∧
        rc.distance ≤ searchRadius) ∧
    List.Sorted (fun a b => b.base.ns ≤ a.base.ns)
      (currentResultsOf allData lat lng searchRadius) := by
  constructor
  · rw [List.forall_iff_forall_mem]
    intro rc hrc
    rw [currentResultsOf] at hrc
    have hrc2 := (List.perm_insertionSort
      (fun a b : RankedCharity => b.base.ns ≤ a.base.ns) _).mem_iff.mp hrc
    obtain ⟨hmem, hdist⟩ := List.mem_filter.mp hrc2
    obtain ⟨c, hc, hfc⟩ := List.mem_map.mp hmem
    obtain ⟨-, hcl⟩ := List.mem_filter.mp hc
    rw [Bool.and_eq_true] at hcl
    obtain ⟨hlat, hlng⟩ := hcl
    subst hfc
    exact ⟨hlat, hlng, rfl, of_decide_eq_true hdist⟩
  · rw [currentResultsOf]
    haveI ht : IsTotal RankedCharity (fun a b => b.base.ns ≤ a.base.ns) :=
      ⟨fun a b => le_total b.base.ns a.base.ns⟩
    haveI htr : IsTrans RankedCharity (fun a b => b.base.ns ≤ a.base.ns) :=
      ⟨fun a b c hab hbc => le_trans hbc hab⟩
    exact List.sorted_insertionSort _ _

end CharityMap.Frontend
